import Mathlib

/-!
Verification of the rv32i machine timer driver
(`src/arch/rv32i/src/machine_timer.rs`).

The driver owns a 64-bit compare register `mtimecmp`, a read-only 64-bit
free-running counter `mtime`, and a single optional alarm client stored in
an `OptionalCell`.  We embed the observable driver state as a structure and
each operation as a pure state transformer; writes to `mtimecmp` and client
callback invocations are additionally recorded in an event trace so that
ordering and counting properties can be stated.
-/

namespace MachineTimer

/-- Size of the 64-bit register value space. -/
def u64size : Nat := 2 ^ 64

/-- Size of the 32-bit value space (the `u32` alarm interface). -/
def u32size : Nat := 2 ^ 32

/-- Tock `ReturnCode` status values (the driver only ever produces
`SUCCESS`, from `disable`). -/
inductive ReturnCode where
  | SUCCESS
  | FAIL
  | EBUSY
  | EINVAL
  | EOFF
  deriving DecidableEq, Repr

/-- Observable state of the `MachineTimer` driver: the 64-bit `mtimecmp`
compare register, the 64-bit free-running `mtime` counter, and the single
optional registered alarm client (`OptionalCell<&dyn AlarmClient>`),
with client references identified by a `Nat` id. -/
structure MTState where
  mtimecmp : Nat
  mtime : Nat
  client : Option Nat
  deriving DecidableEq, Repr

/-- Observable events emitted by the driver: a write of a value to the
`mtimecmp` register, or the invocation of a registered client's `fired()`
callback. -/
inductive Event where
  | writeCmp (v : Nat)
  | fired (c : Nat)
  deriving DecidableEq, Repr

/-- A write to the 64-bit `mtimecmp` register.  The `MTIMECMP` bitfield
covers all 64 bits (`OFFSET(0) NUMBITS(64)`), so the stored value is the
written value reduced mod `2^64`; the write is recorded in the trace. -/
def writeMtimecmp (v : Nat) (s : MTState) : MTState × List Event :=
  ({ s with mtimecmp := v % u64size }, [Event.writeCmp (v % u64size)])

/-- `disable_machine_timer`: disable by setting the `mtimecmp` register to
its max value `0xFFFF_FFFF_FFFF_FFFF`, which will never be hit. -/
def disable_machine_timer (s : MTState) : MTState × List Event :=
  writeMtimecmp 0xFFFFFFFFFFFFFFFF s

/-- `handle_interrupt`: first `disable_machine_timer`, then
`self.client.map(|client| client.fired())` — if a client is registered,
invoke its `fired()` callback. -/
def handle_interrupt (s : MTState) : MTState × List Event :=
  let r := disable_machine_timer s
  match r.1.client with
  | some c => (r.1, r.2 ++ [Event.fired c])
  | none => (r.1, r.2)

/-- `now`: read the `mtime` register (`self.registers.mtime.get()`); a plain
register read returning the counter value and the unchanged state. -/
def now (s : MTState) : Nat × MTState :=
  (s.mtime, s)

/-- `max_tics`: `core::u64::MAX`. -/
def max_tics : Nat := 18446744073709551615

/-- `set_client`: store the client reference (`self.client.set(client)`,
which wraps it in `Some`, replacing any previously registered client). -/
def set_client (c : Nat) (s : MTState) : MTState :=
  { s with client := some c }

/-- `set_alarm(tics: u32)`: write `tics as u64` into `mtimecmp`.  The cast
zero-extends the 32-bit argument; the `u32` parameter type is represented
by reducing the argument mod `2^32` at the boundary. -/
def set_alarm (tics : Nat) (s : MTState) : MTState × List Event :=
  writeMtimecmp (tics % u32size) s

/-- `get_alarm`: read `mtimecmp` and truncate with `as u32`, i.e. return
the low 32 bits (the value mod `2^32`). -/
def get_alarm (s : MTState) : Nat :=
  s.mtimecmp % u32size

/-- `disable`: call `disable_machine_timer`, then return
`ReturnCode::SUCCESS`. -/
def disable (s : MTState) : MTState × List Event × ReturnCode :=
  let r := disable_machine_timer s
  (r.1, r.2, ReturnCode.SUCCESS)

/-- `is_enabled`: true iff `mtimecmp` does not hold the max value
`0xFFFF_FFFF_FFFF_FFFF`. -/
def is_enabled (s : MTState) : Bool :=
  s.mtimecmp != 0xFFFFFFFFFFFFFFFF

/-- Recognise a `fired` callback event in a trace. -/
def isFired : Event → Bool
  | Event.fired _ => true
  | Event.writeCmp _ => false

/-! Small computational facts about the sentinel value. -/

theorem sentinel_mod_u64 : 18446744073709551615 % u64size = 18446744073709551615 := by
  decide

theorem sentinel_mod_u32 : 18446744073709551615 % u32size = 4294967295 := by
  decide

/-- C1: for every 32-bit value `t`, immediately after `set_alarm t` the
driver reports `is_enabled = true` (the zero-extended `t` never equals the
64-bit sentinel) and `get_alarm` returns `t` exactly (truncating the stored
64-bit value back to 32 bits recovers `t`). -/
theorem set_alarm_enables_and_roundtrips (t : Nat) (s : MTState)
    (ht : t < 2 ^ 32) :
    is_enabled (set_alarm t s).1 = true ∧ get_alarm (set_alarm t s).1 = t := by
  have h32 : t % u32size = t := Nat.mod_eq_of_lt (by simpa [u32size] using ht)
  have h64 : t % u64size = t :=
    Nat.mod_eq_of_lt (lt_trans (by simpa [u32size] using ht) (by norm_num [u32size, u64size]))
  constructor
  · simp only [set_alarm, writeMtimecmp, is_enabled, h32, h64, bne_iff_ne, ne_eq]
    omega
  · simp only [set_alarm, writeMtimecmp, get_alarm, h32, h64]

/-- C1 witness at `t = 5000` from a disabled initial state. -/
theorem set_alarm_enables_and_roundtrips_witness :
    is_enabled (set_alarm 5000 ⟨18446744073709551615, 0, none⟩).1 = true ∧
      get_alarm (set_alarm 5000 ⟨18446744073709551615, 0, none⟩).1 = 5000 :=
  set_alarm_enables_and_roundtrips 5000 ⟨18446744073709551615, 0, none⟩ (by norm_num)

/-- C2: after `handle_interrupt`, whatever the prior comparator value and
whether or not a client is registered, `mtimecmp` holds the sentinel
`0xFFFF_FFFF_FFFF_FFFF` and `is_enabled` returns false. -/
theorem handle_interrupt_disables (s : MTState) :
    (handle_interrupt s).1.mtimecmp = 0xFFFFFFFFFFFFFFFF ∧
      is_enabled (handle_interrupt s).1 = false := by
  cases h : s.client <;>
    simp [handle_interrupt, disable_machine_timer, writeMtimecmp, is_enabled,
      sentinel_mod_u64, h]

/-- C3: each `handle_interrupt` call emits exactly one `fired` callback when
a client is registered and none when the slot is empty; the no-client case
completes as a silent no-op. -/
theorem handle_interrupt_fires_once (s : MTState) :
    List.countP isFired (handle_interrupt s).2 =
      (if s.client.isSome then 1 else 0) := by
  cases h : s.client <;>
    simp [handle_interrupt, disable_machine_timer, writeMtimecmp, isFired, h]

/-- C4: in every execution of `handle_interrupt`, any `fired` callback event
is strictly preceded in the trace by the sentinel write to `mtimecmp`, and
the state in which the callback runs already holds the sentinel (the
callback is never invoked while the timer is still armed). -/
theorem handle_interrupt_disarms_before_firing (s : MTState) (c : Nat) (i : Nat)
    (h : (handle_interrupt s).2[i]? = some (Event.fired c)) :
    (∃ j, j < i ∧
        (handle_interrupt s).2[j]? = some (Event.writeCmp 0xFFFFFFFFFFFFFFFF)) ∧
      (handle_interrupt s).1.mtimecmp = 0xFFFFFFFFFFFFFFFF := by
  cases hc : s.client with
  | none =>
    simp only [handle_interrupt, disable_machine_timer, writeMtimecmp,
      sentinel_mod_u64, hc] at h
    cases i with
    | zero => simp at h
    | succ n => simp at h
  | some c0 =>
    refine ⟨⟨0, ?_, ?_⟩, ?_⟩
    · cases i with
      | zero =>
        simp only [handle_interrupt, disable_machine_timer, writeMtimecmp,
          sentinel_mod_u64, hc] at h
        simp at h
      | succ n => exact Nat.succ_pos n
    · simp [handle_interrupt, disable_machine_timer, writeMtimecmp,
        sentinel_mod_u64, hc]
    · simp [handle_interrupt, disable_machine_timer, writeMtimecmp,
        sentinel_mod_u64, hc]

/-- C4 witness: with client `7` registered, the `fired 7` event sits at
index 1 of the trace, after the sentinel write. -/
theorem handle_interrupt_disarms_before_firing_witness :
    (∃ j, j < 1 ∧
        (handle_interrupt ⟨0, 0, some 7⟩).2[j]? =
          some (Event.writeCmp 0xFFFFFFFFFFFFFFFF)) ∧
      (handle_interrupt ⟨0, 0, some 7⟩).1.mtimecmp = 0xFFFFFFFFFFFFFFFF :=
  handle_interrupt_disarms_before_firing ⟨0, 0, some 7⟩ 7 1 (by decide)

/-- C5: `disable` writes the sentinel `0xFFFF_FFFF_FFFF_FFFF` into the
comparator and returns `SUCCESS` from every prior state; immediately
afterward `is_enabled` is false and `get_alarm` returns `0xFFFF_FFFF`. -/
theorem disable_success_and_disables (s : MTState) :
    (disable s).2.2 = ReturnCode.SUCCESS ∧
      (disable s).1.mtimecmp = 0xFFFFFFFFFFFFFFFF ∧
      is_enabled (disable s).1 = false ∧
      get_alarm (disable s).1 = 0xFFFFFFFF := by
  refine ⟨rfl, ?_, ?_, ?_⟩ <;>
    simp [disable, disable_machine_timer, writeMtimecmp, is_enabled, get_alarm,
      sentinel_mod_u64, sentinel_mod_u32]

/-- C6: `set_alarm t` stores `t` zero-extended to 64 bits (high 32 bits
zero) in the comparator, and `get_alarm` returns exactly the low 32 bits
(the value mod `2^32`) of whatever 64-bit value the comparator holds. -/
theorem set_alarm_widens_get_alarm_truncates (t : Nat) (s : MTState)
    (ht : t < 2 ^ 32) :
    (set_alarm t s).1.mtimecmp = t ∧
      ∀ s2 : MTState, get_alarm s2 = s2.mtimecmp % 2 ^ 32 := by
  have h32 : t % u32size = t := Nat.mod_eq_of_lt (by simpa [u32size] using ht)
  have h64 : t % u64size = t :=
    Nat.mod_eq_of_lt (lt_trans (by simpa [u32size] using ht) (by norm_num [u32size, u64size]))
  exact ⟨by simp [set_alarm, writeMtimecmp, h32, h64],
    fun s2 => by simp [get_alarm, u32size]⟩

/-- C6 witness at `t = 123`, also checking the truncation of a comparator
value outside 32-bit range. -/
theorem set_alarm_widens_get_alarm_truncates_witness :
    (set_alarm 123 ⟨0, 0, none⟩).1.mtimecmp = 123 ∧
      ∀ s2 : MTState, get_alarm s2 = s2.mtimecmp % 2 ^ 32 :=
  set_alarm_widens_get_alarm_truncates 123 ⟨0, 0, none⟩ (by norm_num)

/-- C7: `disable` on an already-disabled timer (comparator at the sentinel)
leaves the whole state unchanged, `is_enabled` remains false, and no client
notification appears in the trace. -/
theorem disable_idempotent_on_disabled (s : MTState)
    (h : s.mtimecmp = 0xFFFFFFFFFFFFFFFF) :
    (disable s).1 = s ∧ is_enabled (disable s).1 = false ∧
      List.countP isFired (disable s).2.1 = 0 := by
  obtain ⟨cmp, tm, cl⟩ := s
  simp only [MTState.mk.injEq] at h ⊢
  refine ⟨?_, ?_, ?_⟩ <;>
    simp [disable, disable_machine_timer, writeMtimecmp, is_enabled, isFired,
      sentinel_mod_u64, h]

/-- C7 witness: a disabled state with a registered client. -/
theorem disable_idempotent_on_disabled_witness :
    (disable ⟨18446744073709551615, 42, some 9⟩).1 =
        (⟨18446744073709551615, 42, some 9⟩ : MTState) ∧
      is_enabled (disable ⟨18446744073709551615, 42, some 9⟩).1 = false ∧
      List.countP isFired (disable ⟨18446744073709551615, 42, some 9⟩).2.1 = 0 :=
  disable_idempotent_on_disabled ⟨18446744073709551615, 42, some 9⟩ rfl

/-- C8: `set_client` is last-write-wins on the single client slot: after
registering `a` then `b`, a subsequent `handle_interrupt` invokes `b`'s
`fired` callback and, whenever `a ≠ b`, never `a`'s. -/
theorem set_client_last_write_wins (s : MTState) (a b : Nat) :
    (set_client b (set_client a s)).client = some b ∧
      Event.fired b ∈ (handle_interrupt (set_client b (set_client a s))).2 ∧
      (a ≠ b →
        Event.fired a ∉ (handle_interrupt (set_client b (set_client a s))).2) := by
  refine ⟨rfl, ?_, ?_⟩
  · simp [set_client, handle_interrupt, disable_machine_timer, writeMtimecmp]
  · intro hab
    simp [set_client, handle_interrupt, disable_machine_timer, writeMtimecmp, hab]

/-- C8 witness with clients `0` and `1`. -/
theorem set_client_last_write_wins_witness :
    (set_client 1 (set_client 0 ⟨0, 0, none⟩)).client = some 1 ∧
      Event.fired 1 ∈ (handle_interrupt (set_client 1 (set_client 0 ⟨0, 0, none⟩))).2 ∧
      ((0 : Nat) ≠ 1 →
        Event.fired 0 ∉ (handle_interrupt (set_client 1 (set_client 0 ⟨0, 0, none⟩))).2) :=
  set_client_last_write_wins ⟨0, 0, none⟩ 0 1

/-- C9: `now` returns the current `mtime` counter value and has no side
effects — the state, in particular the comparator register and the client
slot, is unchanged — and `max_tics` is the constant `2^64 - 1`. -/
theorem now_pure_and_max_tics_constant (s : MTState) :
    (now s).1 = s.mtime ∧ (now s).2 = s ∧
      (now s).2.mtimecmp = s.mtimecmp ∧ (now s).2.client = s.client ∧
      max_tics = 2 ^ 64 - 1 := by
  refine ⟨rfl, rfl, rfl, rfl, ?_⟩
  norm_num [max_tics]

/-- C10: `handle_interrupt`, `set_alarm` and `disable` all leave the client
slot unchanged, so the registered client survives a firing: after an
interrupt, re-arming with `set_alarm` and a second `handle_interrupt`
notifies the same client again without re-registration. -/
theorem client_slot_frame (s : MTState) (t : Nat) :
    (handle_interrupt s).1.client = s.client ∧
      (set_alarm t s).1.client = s.client ∧
      (disable s).1.client = s.client ∧
      ∀ c, s.client = some c →
        Event.fired c ∈
          (handle_interrupt (set_alarm t (handle_interrupt s).1).1).2 := by
  cases hc : s.client <;>
    simp [handle_interrupt, set_alarm, disable, disable_machine_timer,
      writeMtimecmp, hc]

/-- C10 witness: client `3` registered, fired, re-armed with `set_alarm 5`,
and fired again without re-registration. -/
theorem client_slot_frame_witness :
    Event.fired 3 ∈
      (handle_interrupt (set_alarm 5 (handle_interrupt ⟨0, 0, some 3⟩).1).1).2 :=
  (client_slot_frame ⟨0, 0, some 3⟩ 5).2.2.2 3 rfl

end MachineTimer
